import Mathlib

/-!
Verification of the quotation-generation pipeline
(`src/services/generate_quotation`): csv_reader.py, json_processor.py and
pdf_generator.py.  Strings are Lean `String`s, Python floats are embedded as
exact rationals (`ℚ`), fallible parsing returns `Option`.  File I/O, the
Jinja2 template engine and WeasyPrint are abstracted: rendering is a
parameter, and the JSON text layer (stdlib `json.dump`/`json.load`) is
modelled at the level of JSON values.
-/

/-! ## Python string and number primitives -/

/-- ASCII whitespace as recognised by Python's `str.strip` (the model is
restricted to ASCII whitespace; Unicode space classes are out of scope). -/
def pyIsSpace (c : Char) : Bool :=
  c == ' ' || c == '\t' || c == '\n' || c == '\r' || c == '\x0b' || c == '\x0c'

/-- Python `str.strip()`: drop leading and trailing whitespace. -/
def pyStrip (s : String) : String :=
  String.mk (((s.data.dropWhile pyIsSpace).reverse.dropWhile pyIsSpace).reverse)

/-- Value of a list of ASCII decimal digits, most significant first. -/
def digitsToNat (cs : List Char) : ℕ :=
  cs.foldl (fun a c => 10 * a + (c.toNat - 48)) 0

/-- Mantissa part of Python's `float(...)` grammar: `digits [. digits]` or
`. digits`, requiring at least one digit overall.  Returns the value and the
unconsumed characters. -/
def parseMantissa (cs : List Char) : Option (ℚ × List Char) :=
  let ip := cs.takeWhile Char.isDigit
  let r1 := cs.dropWhile Char.isDigit
  match r1 with
  | '.' :: r =>
      let fp := r.takeWhile Char.isDigit
      let r2 := r.dropWhile Char.isDigit
      if ip.isEmpty && fp.isEmpty then none
      else some ((digitsToNat ip : ℚ) + (digitsToNat fp : ℚ) / (10 : ℚ) ^ fp.length, r2)
  | _ =>
      if ip.isEmpty then none
      else some ((digitsToNat ip : ℚ), r1)

/-- Optional exponent part of the `float(...)` grammar: `(e|E) [+|-] digits`.
Returns the exponent (0 when absent) and the unconsumed characters. -/
def parseExpPart (cs : List Char) : Option (ℤ × List Char) :=
  match cs with
  | 'e' :: r | 'E' :: r =>
      let (neg, r1) : Bool × List Char :=
        match r with
        | '+' :: t => (false, t)
        | '-' :: t => (true, t)
        | t => (false, t)
      let ds := r1.takeWhile Char.isDigit
      let r2 := r1.dropWhile Char.isDigit
      if ds.isEmpty then none
      else some ((if neg then -(digitsToNat ds : ℤ) else (digitsToNat ds : ℤ)), r2)
  | _ => some (0, cs)

/-- Python `float(s)` as an exact rational: strip whitespace, optional sign,
mantissa, optional exponent, and the whole string must be consumed.  `none`
models a raised `ValueError`.  (The `inf`/`nan` literals and digit
underscores accepted by CPython are outside this model.) -/
def pyFloat? (s : String) : Option ℚ :=
  let cs := (pyStrip s).data
  let (neg, cs1) : Bool × List Char :=
    match cs with
    | '+' :: t => (false, t)
    | '-' :: t => (true, t)
    | t => (false, t)
  match parseMantissa cs1 with
  | none => none
  | some (m, r1) =>
      match parseExpPart r1 with
      | none => none
      | some (e, r2) =>
          if r2.isEmpty then some ((if neg then -m else m) * (10 : ℚ) ^ e)
          else none

/-- Python `int(x)` on a float: truncation toward zero. -/
def truncQ (q : ℚ) : ℤ :=
  if 0 ≤ q then ⌊q⌋ else -⌊-q⌋

/-- Round half to even, the rounding used by Python's `format(x, ',.0f')`
(modelled on exact rationals). -/
def roundHE (q : ℚ) : ℤ :=
  let f := ⌊q⌋
  let r := q - (f : ℚ)
  if r < 1 / 2 then f
  else if 1 / 2 < r then f + 1
  else if f % 2 = 0 then f else f + 1

/-- Split a reversed digit list into groups of three (for thousands
separators). -/
def group3 : List Char → List (List Char)
  | [] => []
  | c :: rest => (c :: rest).take 3 :: group3 ((c :: rest).drop 3)
termination_by cs => cs.length
decreasing_by simp [List.length_drop]; omega

/-- Insert `,` thousands separators into a digit string, grouping from the
right. -/
def commaGroups (s : String) : String :=
  String.intercalate "," (((group3 s.data.reverse).map
    (fun g => String.mk g.reverse)).reverse)

/-! ## csv_reader.py -/

/-- A cell of a `csv.DictReader` row: the label can be absent from the header
(`missing`), present but filled with Python `None` for a short row (`null`),
or carry a string. -/
inductive Cell where
  | missing
  | null
  | val (s : String)
deriving DecidableEq

/-- A raw CSV row: a mapping from header labels to cells. -/
def Row : Type := String → Cell

/-- Python `row.get(label, "")`: `some ""` when the label is absent, `none`
(Python `None`) for a null cell, the string otherwise. -/
def pyGet (r : Row) (k : String) : Option String :=
  match r k with
  | Cell.missing => some ""
  | Cell.null => none
  | Cell.val s => s

/-- Python `(row.get(label, "") or "")`: the `or ""` collapses both an absent
label and a null cell to the empty string. -/
def getStr (r : Row) (k : String) : String :=
  match r k with
  | Cell.missing => ""
  | Cell.null => ""
  | Cell.val s => s

/-- One line item as produced by the reader and consumed downstream.  A
Python dict with exactly these keys; a key absent from an item dict behaves
like the empty string everywhere downstream, so missing keys are identified
with `""`. -/
structure Item where
  name : String
  quantity : String
  unit_price : String
  amount : String
deriving DecidableEq

/-- A normalized invoice record as produced by `CSVReader.read_csv_to_json`.
Top-level fields are `Option String` because a null CSV cell flows through
`row.get(label, "")` as Python `None`. -/
structure RawInvoice where
  customer_name : Option String
  contact_person : Option String
  phone : Option String
  tax_id : Option String
  invoice_number : Option String
  invoice_date : Option String
  invoice_type : Option String
  notes : Option String
  items : List Item
deriving DecidableEq

/-- The item-slot key triples of the `for i in range(1, 5)` loop: name key,
quantity key, unit-price key (slot 1 uses the unsuffixed labels). -/
def slotTriples : List (String × String × String) :=
  [("品項1", "數量", "單價"),
   ("品項2", "數量2", "單價2"),
   ("品項3", "數量3", "單價3"),
   ("品項4", "數量4", "單價4")]

/-- The item built from one slot: stripped name, quantity and unit price,
with `amount` left empty for the PDF generator to derive. -/
def mkSlotItem (r : Row) (kt : String × String × String) : Item :=
  { name := pyStrip (getStr r kt.1)
    quantity := pyStrip (getStr r kt.2.1)
    unit_price := pyStrip (getStr r kt.2.2)
    amount := "" }

/-- The slot loop of `read_csv_to_json`: append the slot's item iff its
stripped name is non-empty. -/
def readRowItems (r : Row) : List Item :=
  slotTriples.foldl
    (fun acc kt => if pyStrip (getStr r kt.1) ≠ "" then acc ++ [mkSlotItem r kt] else acc)
    []

/-- One iteration of `CSVReader.read_csv_to_json`: the record built from one
row. -/
def readRow (r : Row) : RawInvoice :=
  { customer_name := pyGet r "客戶名稱"
    contact_person := pyGet r "聯絡人"
    phone := pyGet r "電話"
    tax_id := pyGet r "客戶統編"
    invoice_number := pyGet r "發票號碼"
    invoice_date := pyGet r "發票日期"
    invoice_type := pyGet r "發票"
    notes := pyGet r "備註"
    items := readRowItems r }

/-- `CSVReader.read_csv_to_json`, with the file layer abstracted to the list
of parsed rows. -/
def read_csv_to_json (rows : List Row) : List RawInvoice :=
  rows.map readRow

/-! ## pdf_generator.py -/

/-- An invoice record as consumed by `HTMLPDFGenerator` (loaded JSON).  In
`pdf_generator.py` every field is read with `invoice_data.get(key, "")` and
`amount` is tested only for truthiness, so an absent key is behaviourally
identical to the empty string and fields are plain strings here. -/
structure Invoice where
  customer_name : String := ""
  contact_person : String := ""
  phone : String := ""
  invoice_title : String := ""
  invoice_number : String := ""
  invoice_issue_date : String := ""
  tax_id : String := ""
  invoice_type : String := ""
  notes : String := ""
  items : List Item := []
deriving DecidableEq

/-- A processed line item of `prepare_invoice_data`: the input item with its
`amount` possibly derived and a `display_quantity` added. -/
structure PItem where
  name : String
  quantity : String
  unit_price : String
  amount : String
  display_quantity : String
deriving DecidableEq

/-- The digit-and-dot extraction of `calculate_item_amount`: strip the
quantity, keep only digit and `.` characters. -/
def extractQtyNum (quantity : String) : String :=
  String.mk ((pyStrip quantity).data.filter (fun c => c.isDigit || c == '.'))

/-- `HTMLPDFGenerator.calculate_item_amount`: quantity (digits and dots
extracted) times unit price, or `0.0` when either `float(...)` raises. -/
def calculate_item_amount (quantity unit_price : String) : ℚ :=
  match pyFloat? (extractQtyNum quantity), pyFloat? (pyStrip unit_price) with
  | some q, some p => q * p
  | _, _ => 0

/-- The `re.fullmatch(r"\s*(\d+)\s*月\s*", ...)` test of
`prepare_invoice_data`: returns the captured digit group when the quantity is
a bare month count. -/
def monthDigits (s : String) : Option String :=
  let cs := s.data.dropWhile pyIsSpace
  let ds := cs.takeWhile Char.isDigit
  let r1 := cs.dropWhile Char.isDigit
  if ds.isEmpty then none
  else
    match r1.dropWhile pyIsSpace with
    | '月' :: r2 =>
        if (r2.dropWhile pyIsSpace).isEmpty then some (String.mk ds) else none
    | _ => none

/-- The per-item body of `prepare_invoice_data`: derive a missing amount as
`str(int(qty*price))` when the product is positive (empty string otherwise),
and rewrite a bare month-count quantity to `"<digits>個月"` for display. -/
def processItem (it : Item) : PItem :=
  let amount :=
    if it.amount = "" then
      let c := calculate_item_amount it.quantity it.unit_price
      if 0 < c then toString (truncQ c) else ""
    else it.amount
  let qd :=
    match monthDigits it.quantity with
    | some ds => ds ++ "個月"
    | none => it.quantity
  { name := it.name
    quantity := it.quantity
    unit_price := it.unit_price
    amount := amount
    display_quantity := qd }

/-- Truthiness-guarded amount parse used by `calculate_totals` and
`get_json_info`: an empty amount contributes 0, a non-empty amount
contributes `float(amount)`, and a `ValueError` (parse failure) skips the
item, likewise contributing 0. -/
def amountOf (a : String) : ℚ :=
  if a = "" then 0 else (pyFloat? a).getD 0

/-- The subtotal/tax/total dictionary of `calculate_totals`. -/
structure Totals where
  subtotal : ℚ
  tax : ℚ
  total : ℚ
deriving DecidableEq

/-- `HTMLPDFGenerator.calculate_totals`: sum the parseable amounts; only
invoice type `"三聯"` adds the 5% business tax (`0.05` embedded as the exact
rational 5/100). -/
def calculate_totals (items : List PItem) (invoice_type : String) : Totals :=
  let subtotal := items.foldl (fun acc it => acc + amountOf it.amount) 0
  if invoice_type = "三聯" then
    let tax := subtotal * (5 / 100)
    { subtotal := subtotal, tax := tax, total := subtotal + tax }
  else
    { subtotal := subtotal, tax := 0, total := subtotal }

/-- `HTMLPDFGenerator.format_currency` on a float value: `f"{value:,.0f}"`,
i.e. round to an integer and insert thousands separators.  (The string branch
of the Python function first applies `float(...)`; only float inputs occur in
`prepare_invoice_data`.) -/
def format_currency (q : ℚ) : String :=
  let n := roundHE q
  (if n < 0 then "-" else "") ++ commaGroups (toString n.natAbs)

/-- The prepared template input built by `prepare_invoice_data`.  The three
totals are carried both as the exact values fed to `format_currency` and as
the formatted strings placed in the `totals` dict. -/
structure PreparedData where
  customer_name : String
  contact_person : String
  phone : String
  invoice_title : String
  invoice_number : String
  invoice_date : String
  invoice_issue_date : String
  tax_id : String
  invoice_type : String
  notes : String
  item_list : List PItem
  totals : Totals
  subtotal_s : String
  tax_s : String
  total_s : String
  tax_note : String

/-- `HTMLPDFGenerator.prepare_invoice_data`.  `today` stands for
`datetime.now().strftime("%Y-%m-%d")`, the system-generated billing date. -/
def prepare_invoice_data (today : String) (inv : Invoice) : PreparedData :=
  let processed := inv.items.map processItem
  let t := calculate_totals processed inv.invoice_type
  { customer_name := inv.customer_name
    contact_person := inv.contact_person
    phone := inv.phone
    invoice_title := inv.invoice_title
    invoice_number := inv.invoice_number
    invoice_date := today
    invoice_issue_date := inv.invoice_issue_date
    tax_id := inv.tax_id
    invoice_type := inv.invoice_type
    notes := inv.notes
    item_list := processed
    totals := t
    subtotal_s := format_currency t.subtotal
    tax_s := format_currency t.tax
    total_s := format_currency t.total
    tax_note := if inv.invoice_type = "二聯" then "已包含" else "" }

/-- The page-break marker inserted between consecutive documents by
`generate_multiple_pdfs`. -/
def pageBreakDiv : String := "<div class=\"page-break\"></div>"

/-- `HTMLPDFGenerator.generate_html`, with the Jinja2 template abstracted as
a function from prepared data to markup. -/
def generate_html (today : String) (template : PreparedData → String)
    (inv : Invoice) : String :=
  template (prepare_invoice_data today inv)

/-- The `if i < len(invoices) - 1` page-break append of
`generate_multiple_pdfs`: `i < len - 1` holds exactly for the non-last
elements, so the marker is appended to every document but the last. -/
def withBreaks : List String → List String
  | [] => []
  | [d] => [d]
  | d :: rest => (d ++ pageBreakDiv) :: withBreaks rest

/-- Python `sep.join(l)`. -/
def pyJoin (sep : String) : List String → String
  | [] => ""
  | [d] => d
  | d :: rest => d ++ sep ++ pyJoin sep rest

/-- The combined markup built by `HTMLPDFGenerator.generate_multiple_pdfs`
before it is handed to WeasyPrint: per-record documents with page-break
markers appended to all but the last, joined with newlines. -/
def generate_multiple_html (today : String) (template : PreparedData → String)
    (invs : List Invoice) : String :=
  pyJoin "\n" (withBreaks (invs.map (generate_html today template)))

/-- Number of positions of a character list at which a pattern occurs. -/
def countSubstr (hay pat : List Char) : ℕ :=
  match hay with
  | [] => 0
  | h :: t => (if pat.isPrefixOf (h :: t) then 1 else 0) + countSubstr t pat

/-! ## json_processor.py -/

/-- A JSON value, the data handled by `JSONProcessor` (numbers stand for
both Python ints and floats). -/
inductive JVal where
  | null
  | bool (b : Bool)
  | num (q : ℚ)
  | str (s : String)
  | arr (elems : List JVal)
  | obj (fields : List (String × JVal))

/-- Python dict membership `key in dict` for an object's field list. -/
def hasKey (fields : List (String × JVal)) (k : String) : Bool :=
  fields.any (fun p => p.1 = k)

/-- Python dict lookup `dict[key]` / first matching field. -/
def lookupJ : List (String × JVal) → String → Option JVal
  | [], _ => none
  | (k, v) :: rest, key => if k = key then some v else lookupJ rest key

/-- Python string equality `v == k` between an arbitrary value and a string
(cross-type comparison is `False`, never an error). -/
def strEqJ (k : String) : JVal → Bool
  | JVal.str s => s = k
  | _ => false

/-- Substring test, Python `pat in s` on strings. -/
def strContains (s pat : String) : Bool :=
  (List.range (s.data.length + 1)).any (fun i => pat.data.isPrefixOf (s.data.drop i))

/-- Python `k in v` for a string `k`: key membership for dicts, substring for
strings, element membership for lists; `none` models the `TypeError` raised
on the remaining types. -/
def pyIn (k : String) : JVal → Option Bool
  | JVal.obj fields => some (hasKey fields k)
  | JVal.str s => some (strContains s k)
  | JVal.arr l => some (l.any (strEqJ k))
  | _ => none

/-- The required top-level fields of `_validate_single_invoice`, in the order
they are checked. -/
def requiredFields : List String :=
  ["customer_name", "contact_person", "phone", "tax_id", "invoice_number",
   "invoice_date", "invoice_type", "notes", "items"]

/-- The required per-item fields of `_validate_single_invoice`. -/
def itemFields : List String := ["name", "quantity", "unit_price", "amount"]

/-- The inner `for field in item_fields` loop: `some false` at the first
field not `in` the item, `none` when the membership test raises
`TypeError`, `some true` when all fields pass. -/
def checkFields (ks : List String) (v : JVal) : Option Bool :=
  match ks with
  | [] => some true
  | k :: rest =>
      match pyIn k v with
      | none => none
      | some false => some false
      | some true => checkFields rest v

/-- The `for item in invoice["items"]` loop of `_validate_single_invoice`. -/
def validateItems : List JVal → Option Bool
  | [] => some true
  | it :: rest =>
      match checkFields itemFields it with
      | none => none
      | some false => some false
      | some true => validateItems rest

/-- `JSONProcessor._validate_single_invoice` on an invoice dict: all required
top-level fields present, `items` must be a list, and every item must contain
the four item fields.  `none` models an uncaught exception (it is caught by
`validate_json_structure`). -/
def validate_single_invoice (invoice : List (String × JVal)) : Option Bool :=
  if requiredFields.all (fun f => hasKey invoice f) then
    match lookupJ invoice "items" with
    | some (JVal.arr items) => validateItems items
    | some _ => some false
    | none => some false
  else some false

/-- The field named by the first `✗ 缺少必要欄位` diagnostic printed by
`_validate_single_invoice`: the first required field absent from the
invoice. -/
def firstMissingRequired (invoice : List (String × JVal)) : Option String :=
  requiredFields.find? (fun f => ¬ hasKey invoice f)

/-- The `data` argument of `validate_json_structure` / `get_json_info`: a
single invoice dict or a list of invoice dicts, the two shapes dispatched on
with `isinstance(data, list)`. -/
inductive JsonData where
  | single (inv : List (String × JVal))
  | multiple (invs : List (List (String × JVal)))

/-- The `for invoice in data` loop of `validate_json_structure`: stop with
`False` at the first failing invoice; an exception anywhere is caught by the
surrounding `try` and also yields `False`. -/
def validateList : List (List (String × JVal)) → Bool
  | [] => true
  | inv :: rest =>
      match validate_single_invoice inv with
      | some true => validateList rest
      | _ => false

/-- `JSONProcessor.validate_json_structure`: dispatch on the data shape; the
surrounding `try/except` turns any exception into `False`. -/
def validate_json_structure : JsonData → Bool
  | JsonData.single inv => (validate_single_invoice inv).getD false
  | JsonData.multiple invs => validateList invs

/-- The aggregate info dict returned by `get_json_info` for a list of
invoices. -/
structure JsonInfoM where
  invoice_count : ℕ
  total_items : ℕ
  total_amount : ℚ
  tax_amount : ℚ
  final_total : ℚ
deriving DecidableEq

/-- The info dict returned by `get_json_info` for a single invoice. -/
structure JsonInfoS where
  customer_name : String
  item_count : ℕ
  total_amount : ℚ
  tax_amount : ℚ
  final_total : ℚ
deriving DecidableEq

/-- The multi-invoice branch of `JSONProcessor.get_json_info`: sum the item
counts and the parseable amounts over all records, then apply the flat 5%
(`0.05` and `1.05` embedded as exact rationals). -/
def get_json_info_multiple (invs : List Invoice) : JsonInfoM :=
  let total_items := invs.foldl (fun n inv => n + inv.items.length) 0
  let total_amount :=
    invs.foldl (fun acc inv => inv.items.foldl (fun a it => a + amountOf it.amount) acc) 0
  { invoice_count := invs.length
    total_items := total_items
    total_amount := total_amount
    tax_amount := total_amount * (5 / 100)
    final_total := total_amount * (105 / 100) }

/-- The single-invoice branch of `JSONProcessor.get_json_info`. -/
def get_json_info_single (inv : Invoice) : JsonInfoS :=
  let total_amount := inv.items.foldl (fun a it => a + amountOf it.amount) 0
  { customer_name := inv.customer_name
    item_count := inv.items.length
    total_amount := total_amount
    tax_amount := total_amount * (5 / 100)
    final_total := total_amount * (105 / 100) }

/-- The shape-tagged result of `JSONProcessor.get_json_info`. -/
inductive JsonInfo where
  | multiple (i : JsonInfoM)
  | single (i : JsonInfoS)

/-- The `data` argument of `get_json_info` (invoice records, not raw JSON). -/
inductive InvoiceData where
  | single (inv : Invoice)
  | multiple (invs : List Invoice)

/-- `JSONProcessor.get_json_info`: dispatch on `isinstance(data, list)`. -/
def get_json_info : InvoiceData → JsonInfo
  | InvoiceData.multiple invs => JsonInfo.multiple (get_json_info_multiple invs)
  | InvoiceData.single inv => JsonInfo.single (get_json_info_single inv)

/-! ### The intermediate JSON form (csv_to_json_file / load_json_file)

`csv_to_json_file` passes the normalized records straight to `json.dump`
and `load_json_file` is a bare `json.load`; the stdlib text layer is
abstracted as the identity on JSON values, so saving is modelled by the
JSON value `json.dump` serializes and loading by reading that value back
field by field. -/

/-- A Python `str`-or-`None` field as a JSON value. -/
def optJ : Option String → JVal
  | none => JVal.null
  | some s => JVal.str s

/-- The JSON object `json.dump` writes for one line item (dict insertion
order of `read_csv_to_json`). -/
def itemToJ (it : Item) : JVal :=
  JVal.obj
    [("name", JVal.str it.name), ("quantity", JVal.str it.quantity),
     ("unit_price", JVal.str it.unit_price), ("amount", JVal.str it.amount)]

/-- The JSON object `json.dump` writes for one normalized record (dict
insertion order of `read_csv_to_json`). -/
def invoiceToJ (inv : RawInvoice) : JVal :=
  JVal.obj
    [("customer_name", optJ inv.customer_name),
     ("contact_person", optJ inv.contact_person),
     ("phone", optJ inv.phone),
     ("tax_id", optJ inv.tax_id),
     ("invoice_number", optJ inv.invoice_number),
     ("invoice_date", optJ inv.invoice_date),
     ("invoice_type", optJ inv.invoice_type),
     ("notes", optJ inv.notes),
     ("items", JVal.arr (inv.items.map itemToJ))]

/-- The JSON value written by `JSONProcessor.csv_to_json_file` for a record
set. -/
def dumpInvoices (invs : List RawInvoice) : JVal :=
  JVal.arr (invs.map invoiceToJ)

/-- Read back a string-or-null field. -/
def decodeOpt : JVal → Option (Option String)
  | JVal.null => some none
  | JVal.str s => some (some s)
  | _ => none

/-- Read back one line item, field for field. -/
def jToItem (v : JVal) : Option Item :=
  match v with
  | JVal.obj fs => do
      let n ← lookupJ fs "name"
      let q ← lookupJ fs "quantity"
      let u ← lookupJ fs "unit_price"
      let a ← lookupJ fs "amount"
      match n, q, u, a with
      | JVal.str n, JVal.str q, JVal.str u, JVal.str a =>
          some { name := n, quantity := q, unit_price := u, amount := a }
      | _, _, _, _ => none
  | _ => none

/-- Read back a list of line items. -/
def decodeItemList : List JVal → Option (List Item)
  | [] => some []
  | v :: rest => do
      let it ← jToItem v
      let tl ← decodeItemList rest
      some (it :: tl)

/-- Read back one normalized record, field for field. -/
def jToInvoice (v : JVal) : Option RawInvoice :=
  match v with
  | JVal.obj fs => do
      let cn ← (lookupJ fs "customer_name").bind decodeOpt
      let cp ← (lookupJ fs "contact_person").bind decodeOpt
      let ph ← (lookupJ fs "phone").bind decodeOpt
      let ti ← (lookupJ fs "tax_id").bind decodeOpt
      let inum ← (lookupJ fs "invoice_number").bind decodeOpt
      let idate ← (lookupJ fs "invoice_date").bind decodeOpt
      let ity ← (lookupJ fs "invoice_type").bind decodeOpt
      let nt ← (lookupJ fs "notes").bind decodeOpt
      let its ←
        match lookupJ fs "items" with
        | some (JVal.arr l) => decodeItemList l
        | _ => none
      some { customer_name := cn, contact_person := cp, phone := ph,
             tax_id := ti, invoice_number := inum, invoice_date := idate,
             invoice_type := ity, notes := nt, items := its }
  | _ => none

/-- Read back a record set from the JSON value returned by
`JSONProcessor.load_json_file`, field for field. -/
def decodeInvoiceList : List JVal → Option (List RawInvoice)
  | [] => some []
  | v :: rest => do
      let inv ← jToInvoice v
      let tl ← decodeInvoiceList rest
      some (inv :: tl)

/-- The loaded record set: `load_json_file` output interpreted field for
field as normalized records. -/
def loadInvoices : JVal → Option (List RawInvoice)
  | JVal.arr l => decodeInvoiceList l
  | _ => none

/-! ## Spec-side characterizations and concrete example data -/

/-- The claim's characterization of a structurally valid invoice dict: all
nine required top-level fields present, `items` a list, and every element of
it containing the four item fields (membership in the sense of Python
`in`). -/
def InvoiceWellFormed (invoice : List (String × JVal)) : Prop :=
  (∀ f ∈ requiredFields, hasKey invoice f = true) ∧
  ∃ l, lookupJ invoice "items" = some (JVal.arr l) ∧
    ∀ it ∈ l, ∀ f ∈ itemFields, pyIn f it = some true

/-- The top-level CSV labels, in the order `read_csv_to_json` reads them. -/
def topLabels : List String :=
  ["客戶名稱", "聯絡人", "電話", "客戶統編", "發票號碼", "發票日期", "發票", "備註"]

/-- The top-level fields of a record, in the same order as `topLabels`. -/
def topFieldsOf (inv : RawInvoice) : List (Option String) :=
  [inv.customer_name, inv.contact_person, inv.phone, inv.tax_id,
   inv.invoice_number, inv.invoice_date, inv.invoice_type, inv.notes]

/-- A row whose customer-name cell is null (a short CSV row): the label is
present in the header but its value is Python `None`. -/
def nullNameRow : Row := fun k => if k = "客戶名稱" then Cell.null else Cell.missing

/-- A row with only item slots 1 and 3 populated. -/
def row13 : Row := fun k =>
  if k = "品項1" then Cell.val "甲"
  else if k = "數量" then Cell.val "1"
  else if k = "單價" then Cell.val "10"
  else if k = "品項3" then Cell.val "丙"
  else if k = "數量3" then Cell.val "3"
  else if k = "單價3" then Cell.val "30"
  else Cell.missing

/-- A three-part-invoice record with one derivable line item. -/
def invThree : Invoice :=
  { invoice_type := "三聯"
    items := [{ name := "a", quantity := "2", unit_price := "500", amount := "" }] }

/-- Batch scenario record with subtotal 1000 and an arbitrary invoice type. -/
def invA (t : String) : Invoice :=
  { invoice_type := t
    items := [{ name := "a", quantity := "", unit_price := "", amount := "1000" }] }

/-- Batch scenario record with subtotal 2000 (1500 + 500) and an arbitrary
invoice type. -/
def invB (t : String) : Invoice :=
  { invoice_type := t
    items := [{ name := "b1", quantity := "", unit_price := "", amount := "1500" },
              { name := "b2", quantity := "", unit_price := "", amount := "500" }] }

/-- Batch scenario record with subtotal 500 and an arbitrary invoice type. -/
def invC (t : String) : Invoice :=
  { invoice_type := t
    items := [{ name := "c", quantity := "", unit_price := "", amount := "500" }] }

/-- A concrete template for evaluating the multi-document markup. -/
def templC : PreparedData → String := fun p => "[" ++ p.customer_name ++ "]"

/-- Three concrete records for the page-break count evaluation. -/
def invsC : List Invoice :=
  [{ customer_name := "一" }, { customer_name := "二" }, { customer_name := "三" }]

/-- An invoice dict missing exactly the `notes` field. -/
def notesMissing : List (String × JVal) :=
  [("customer_name", JVal.str "客戶"), ("contact_person", JVal.str "人"),
   ("phone", JVal.str "03"), ("tax_id", JVal.str "123"),
   ("invoice_number", JVal.str "INV"), ("invoice_date", JVal.str "2024"),
   ("invoice_type", JVal.str "二聯"), ("items", JVal.arr [])]

/-- A structurally complete invoice dict. -/
def sampleOK : List (String × JVal) :=
  [("customer_name", JVal.str "c"), ("contact_person", JVal.str "p"),
   ("phone", JVal.str "t"), ("tax_id", JVal.str "x"),
   ("invoice_number", JVal.str "n"), ("invoice_date", JVal.str "d"),
   ("invoice_type", JVal.str "y"), ("notes", JVal.str "o"),
   ("items", JVal.arr [])]

/-! ## Helper lemmas -/

/-- Accumulating a summand per element is summing the mapped list. -/
theorem foldl_add_map_sum {α M : Type} [AddCommMonoid M] (f : α → M) :
    ∀ (l : List α) (a : M), l.foldl (fun acc x => acc + f x) a = a + (l.map f).sum := by
  intro l
  induction l with
  | nil => intro a; simp
  | cons x xs ih => intro a; simp [ih, add_assoc]

/-- A fold that conditionally appends one element per input is the mapped
filter. -/
theorem foldl_append_filter {α β : Type} (p : α → Prop) [DecidablePred p] (f : α → β) :
    ∀ (l : List α) (acc : List β),
      l.foldl (fun a x => if p x then a ++ [f x] else a) acc
        = acc ++ (l.filter (fun x => p x)).map f := by
  intro l
  induction l with
  | nil => intro acc; simp
  | cons x xs ih =>
      intro acc
      by_cases h : p x
      · simp [h, ih, List.filter_cons]
      · simp [h, ih, List.filter_cons]

/-- The items of a normalized record are the populated slots, in slot
order. -/
theorem readRowItems_eq (r : Row) :
    readRowItems r
      = (slotTriples.filter (fun kt => pyStrip (getStr r kt.1) ≠ "")).map (mkSlotItem r) := by
  unfold readRowItems
  rw [foldl_append_filter]
  simp

/-- Joining newline-separated documents whose non-last elements carry a
page-break marker is joining with a marker-plus-newline separator. -/
theorem pyJoin_withBreaks : ∀ l : List String,
    pyJoin "\n" (withBreaks l) = pyJoin (pageBreakDiv ++ "\n") l := by
  intro l
  induction l with
  | nil => rfl
  | cons d rest ih =>
      cases rest with
      | nil => rfl
      | cons e t =>
          have h2 : ∃ x xs, withBreaks (e :: t) = x :: xs := by
            cases t with
            | nil => exact ⟨e, [], rfl⟩
            | cons g u => exact ⟨e ++ pageBreakDiv, withBreaks (g :: u), rfl⟩
          obtain ⟨x, xs, hx⟩ := h2
          have hL : withBreaks (d :: e :: t) = (d ++ pageBreakDiv) :: withBreaks (e :: t) := rfl
          rw [hL, hx]
          have hstep : pyJoin "\n" ((d ++ pageBreakDiv) :: x :: xs)
              = (d ++ pageBreakDiv) ++ "\n" ++ pyJoin "\n" (x :: xs) := rfl
          rw [hstep, ← hx, ih]
          have hR : pyJoin (pageBreakDiv ++ "\n") (d :: e :: t)
              = d ++ (pageBreakDiv ++ "\n") ++ pyJoin (pageBreakDiv ++ "\n") (e :: t) := rfl
          rw [hR]
          simp [String.append_assoc]

/-- The item-field loop succeeds exactly when every field is `in` the
value. -/
theorem checkFields_eq_some_true (v : JVal) :
    ∀ ks : List String, (checkFields ks v = some true ↔ ∀ k ∈ ks, pyIn k v = some true) := by
  intro ks
  induction ks with
  | nil => simp [checkFields]
  | cons k rest ih =>
      cases h : pyIn k v with
      | none => simp [checkFields, h]
      | some b =>
          cases b with
          | false => simp [checkFields, h]
          | true => simp [checkFields, h, ih]

/-- The item loop succeeds exactly when every item passes the field
check. -/
theorem validateItems_eq_some_true :
    ∀ l : List JVal, (validateItems l = some true ↔ ∀ it ∈ l, checkFields itemFields it = some true) := by
  intro l
  induction l with
  | nil => simp [validateItems]
  | cons it rest ih =>
      cases h : checkFields itemFields it with
      | none => simp [validateItems, h]
      | some b =>
          cases b with
          | false => simp [validateItems, h]
          | true => simp [validateItems, h, ih]

/-- `_validate_single_invoice` succeeds exactly on well-formed invoice
dicts. -/
theorem validate_single_eq_some_true (invoice : List (String × JVal)) :
    validate_single_invoice invoice = some true ↔ InvoiceWellFormed invoice := by
  unfold validate_single_invoice
  by_cases hreq : (requiredFields.all fun f => hasKey invoice f) = true
  · rw [if_pos hreq]
    have hreq' : ∀ f ∈ requiredFields, hasKey invoice f = true := by
      simpa [List.all_eq_true] using hreq
    cases hl : lookupJ invoice "items" with
    | none => simp [InvoiceWellFormed, hl]
    | some v =>
        cases v with
        | null => simp [InvoiceWellFormed, hl]
        | bool b => simp [InvoiceWellFormed, hl]
        | num q => simp [InvoiceWellFormed, hl]
        | str s => simp [InvoiceWellFormed, hl]
        | obj fs => simp [InvoiceWellFormed, hl]
        | arr l =>
            simp [InvoiceWellFormed, hl, validateItems_eq_some_true,
              checkFields_eq_some_true, hreq']
            exact fun _ => hreq'
  · rw [if_neg hreq]
    have h1 : ¬ ∀ f ∈ requiredFields, hasKey invoice f = true := by
      intro hall
      exact hreq (by simpa [List.all_eq_true] using hall)
    simp [InvoiceWellFormed, h1]

/-- The record loop of `validate_json_structure` succeeds exactly when every
record passes. -/
theorem validateList_eq_true :
    ∀ invs : List (List (String × JVal)),
      (validateList invs = true ↔ ∀ inv ∈ invs, validate_single_invoice inv = some true) := by
  intro invs
  induction invs with
  | nil => simp [validateList]
  | cons inv rest ih =>
      cases h : validate_single_invoice inv with
      | none => simp [validateList, h]
      | some b =>
          cases b with
          | false => simp [validateList, h]
          | true => simp [validateList, h, ih]

/-- Reading back a dumped optional string field recovers it. -/
theorem decodeOpt_optJ (o : Option String) : decodeOpt (optJ o) = some o := by
  cases o <;> rfl

/-- Reading back a dumped line item recovers it. -/
theorem jToItem_itemToJ (it : Item) : jToItem (itemToJ it) = some it := rfl

/-- Reading back a dumped item list recovers it. -/
theorem decodeItemList_map : ∀ l : List Item, decodeItemList (l.map itemToJ) = some l := by
  intro l
  induction l with
  | nil => rfl
  | cons it rest ih => simp [decodeItemList, jToItem_itemToJ, ih]

/-- Reading back a dumped record recovers it, field for field. -/
theorem jToInvoice_invoiceToJ (inv : RawInvoice) : jToInvoice (invoiceToJ inv) = some inv := by
  simp [jToInvoice, invoiceToJ, lookupJ, decodeOpt_optJ, decodeItemList_map]

/-- Evaluation of `float("1")`. -/
theorem pyFloat_one : pyFloat? "1" = some 1 := by
  simp +decide [pyFloat?, parseMantissa, parseExpPart, pyStrip, pyIsSpace, digitsToNat]

/-- Evaluation of `float("1.9")`. -/
theorem pyFloat_nineteen_tenths : pyFloat? "1.9" = some (19 / 10) := by
  simp +decide [pyFloat?, parseMantissa, parseExpPart, pyStrip, pyIsSpace, digitsToNat]
  norm_num

/-- Evaluation of `float("2")`. -/
theorem pyFloat_two : pyFloat? "2" = some 2 := by
  simp +decide [pyFloat?, parseMantissa, parseExpPart, pyStrip, pyIsSpace, digitsToNat]

/-- Evaluation of `float("3")`. -/
theorem pyFloat_three : pyFloat? "3" = some 3 := by
  simp +decide [pyFloat?, parseMantissa, parseExpPart, pyStrip, pyIsSpace, digitsToNat]

/-- Evaluation of `float("30")`. -/
theorem pyFloat_thirty : pyFloat? "30" = some 30 := by
  simp +decide [pyFloat?, parseMantissa, parseExpPart, pyStrip, pyIsSpace, digitsToNat]

/-- Evaluation of `float("500")`. -/
theorem pyFloat_five_hundred : pyFloat? "500" = some 500 := by
  simp +decide [pyFloat?, parseMantissa, parseExpPart, pyStrip, pyIsSpace, digitsToNat]

/-- Evaluation of `float("1000")`. -/
theorem pyFloat_thousand : pyFloat? "1000" = some 1000 := by
  simp +decide [pyFloat?, parseMantissa, parseExpPart, pyStrip, pyIsSpace, digitsToNat]

/-- Evaluation of `float("1500")`. -/
theorem pyFloat_fifteen_hundred : pyFloat? "1500" = some 1500 := by
  simp +decide [pyFloat?, parseMantissa, parseExpPart, pyStrip, pyIsSpace, digitsToNat]

/-! ## Claim theorems -/

/-- C1 (amended): for every line item, a present non-empty amount is kept
verbatim; an absent or empty amount is derived from the extracted quantity
and the unit price as `str(int(quantity * unit_price))` — truncation toward
zero, not rounding — when the product is positive, and is the empty string
when the product is zero or either operand fails to parse. -/
theorem c1_item_amount_derivation (it : Item) :
    (it.amount ≠ "" → (processItem it).amount = it.amount) ∧
    (it.amount = "" →
      (0 < calculate_item_amount it.quantity it.unit_price →
        (processItem it).amount
          = toString (truncQ (calculate_item_amount it.quantity it.unit_price))) ∧
      (calculate_item_amount it.quantity it.unit_price = 0 →
        (processItem it).amount = "") ∧
      ((pyFloat? (extractQtyNum it.quantity) = none ∨ pyFloat? (pyStrip it.unit_price) = none) →
        (processItem it).amount = "")) := by
  constructor
  · intro h
    simp [processItem, h]
  · intro h
    refine ⟨?_, ?_, ?_⟩
    · intro hpos
      simp [processItem, h, hpos]
    · intro hz
      simp [processItem, h, hz]
    · intro hfail
      have hz : calculate_item_amount it.quantity it.unit_price = 0 := by
        unfold calculate_item_amount
        rcases hfail with hf | hf
        · simp [hf]
        · cases hq : pyFloat? (extractQtyNum it.quantity) <;> simp [hf, hq]
      simp [processItem, h, hz]

/-- C1 counterexample: with quantity `"1.9"`, unit price `"1"` and empty
amount the product is the positive 1.9, whose rounding is 2, yet the
prepared amount is `"1"` (the code truncates with `int`, it does not
round). -/
theorem c1_round_counterexample :
    (processItem { name := "x", quantity := "1.9", unit_price := "1", amount := "" }).amount
        = "1" ∧
    0 < calculate_item_amount "1.9" "1" ∧
    toString (roundHE (calculate_item_amount "1.9" "1")) = "2" := by
  have hq : pyFloat? (extractQtyNum "1.9") = some (19 / 10) := by
    have he : extractQtyNum "1.9" = "1.9" := by decide
    rw [he, pyFloat_nineteen_tenths]
  have hc : calculate_item_amount "1.9" "1" = 19 / 10 := by
    rw [calculate_item_amount, hq, show pyStrip "1" = "1" from by decide, pyFloat_one]
    norm_num
  have hpos : (0 : ℚ) < 19 / 10 := by norm_num
  have ht : truncQ (19 / 10 : ℚ) = 1 := by norm_num [truncQ]
  have hr : roundHE (19 / 10 : ℚ) = 2 := by norm_num [roundHE]
  refine ⟨?_, ?_, ?_⟩
  · simp [processItem, hc, hpos, ht, show toString (1 : ℤ) = "1" from by decide]
  · rw [hc]; exact hpos
  · rw [hc, hr]; decide

/-- C1 witness: a concrete derivable item (quantity with a unit suffix). -/
theorem c1_item_amount_derivation_witness :
    (processItem { name := "w", quantity := "2 包", unit_price := "30", amount := "" }).amount
      = "60" := by
  have hc : calculate_item_amount "2 包" "30" = 60 := by
    have hq : pyFloat? (extractQtyNum "2 包") = some 2 := by
      rw [show extractQtyNum "2 包" = "2" from by decide, pyFloat_two]
    rw [calculate_item_amount, hq, show pyStrip "30" = "30" from by decide, pyFloat_thirty]
    norm_num
  have h := c1_item_amount_derivation
    { name := "w", quantity := "2 包", unit_price := "30", amount := "" }
  have h2 := (h.2 rfl).1
    (show 0 < calculate_item_amount "2 包" "30" by rw [hc]; norm_num)
  rw [h2]
  show toString (truncQ (calculate_item_amount "2 包" "30")) = "60"
  rw [hc, show truncQ (60 : ℚ) = 60 from by norm_num [truncQ]]
  decide

/-- C2: per-record totals are keyed strictly on the invoice type — `"三聯"`
adds 5% tax (total = subtotal times 1.05), `"二聯"` has zero tax, total =
subtotal and the `已包含` tax annotation, and any other type has zero tax,
total = subtotal and an empty annotation; the subtotal is the sum of the
parseable item amounts with empty or unparseable amounts contributing 0. -/
theorem c2_invoice_type_totals (today : String) (inv : Invoice) :
    (calculate_totals (inv.items.map processItem) inv.invoice_type).subtotal
        = ((inv.items.map processItem).map (fun it => amountOf it.amount)).sum ∧
    (inv.invoice_type = "三聯" →
      (calculate_totals (inv.items.map processItem) inv.invoice_type).tax
          = (calculate_totals (inv.items.map processItem) inv.invoice_type).subtotal * (5 / 100) ∧
      (calculate_totals (inv.items.map processItem) inv.invoice_type).total
          = (calculate_totals (inv.items.map processItem) inv.invoice_type).subtotal * (105 / 100)) ∧
    (inv.invoice_type = "二聯" →
      (calculate_totals (inv.items.map processItem) inv.invoice_type).tax = 0 ∧
      (calculate_totals (inv.items.map processItem) inv.invoice_type).total
          = (calculate_totals (inv.items.map processItem) inv.invoice_type).subtotal ∧
      (prepare_invoice_data today inv).tax_note = "已包含") ∧
    (inv.invoice_type ≠ "三聯" → inv.invoice_type ≠ "二聯" →
      (calculate_totals (inv.items.map processItem) inv.invoice_type).tax = 0 ∧
      (calculate_totals (inv.items.map processItem) inv.invoice_type).total
          = (calculate_totals (inv.items.map processItem) inv.invoice_type).subtotal ∧
      (prepare_invoice_data today inv).tax_note = "") := by
  refine ⟨?_, ?_, ?_, ?_⟩
  · by_cases h3 : inv.invoice_type = "三聯" <;>
      simp [calculate_totals, h3, foldl_add_map_sum]
  · intro h3
    refine ⟨by simp [calculate_totals, h3], ?_⟩
    simp [calculate_totals, h3]
    ring
  · intro h2
    have h3 : inv.invoice_type ≠ "三聯" := by simp [h2]
    refine ⟨by simp [calculate_totals, h3], by simp [calculate_totals, h3], ?_⟩
    simp [prepare_invoice_data, h2]
  · intro h3 h2
    refine ⟨by simp [calculate_totals, h3], by simp [calculate_totals, h3], ?_⟩
    simp [prepare_invoice_data, h2]

/-- C2 witness: a concrete three-part-invoice record, where the 5% tax and
the 1.05 factor hold. -/
theorem c2_invoice_type_totals_witness :
    (calculate_totals (invThree.items.map processItem) invThree.invoice_type).tax
        = (calculate_totals (invThree.items.map processItem) invThree.invoice_type).subtotal
          * (5 / 100) ∧
    (calculate_totals (invThree.items.map processItem) invThree.invoice_type).total
        = (calculate_totals (invThree.items.map processItem) invThree.invoice_type).subtotal
          * (105 / 100) := by
  exact (c2_invoice_type_totals "2024-01-01" invThree).2.1 rfl

/-- C3: the batch aggregate of `get_json_info` sums the item counts and the
parseable amounts over all records and applies a flat 5% regardless of each
record's invoice type; in particular three records with subtotals
1000/2000/500 and arbitrary invoice types yield total 3500, tax 175 and
final total 3675. -/
theorem c3_batch_aggregate (invs : List Invoice) (t1 t2 t3 : String) :
    (get_json_info_multiple invs).total_items
        = (invs.map (fun inv => inv.items.length)).sum ∧
    (get_json_info_multiple invs).total_amount
        = (invs.map (fun inv => (inv.items.map (fun it => amountOf it.amount)).sum)).sum ∧
    (get_json_info_multiple invs).tax_amount
        = (get_json_info_multiple invs).total_amount * (5 / 100) ∧
    (get_json_info_multiple invs).final_total
        = (get_json_info_multiple invs).total_amount * (105 / 100) ∧
    (get_json_info_multiple [invA t1, invB t2, invC t3]).total_amount = 3500 ∧
    (get_json_info_multiple [invA t1, invB t2, invC t3]).tax_amount = 175 ∧
    (get_json_info_multiple [invA t1, invB t2, invC t3]).final_total = 3675 := by
  have hsum : ∀ t1 t2 t3 : String,
      (get_json_info_multiple [invA t1, invB t2, invC t3]).total_amount = 3500 := by
    intro u1 u2 u3
    simp [get_json_info_multiple, invA, invB, invC, amountOf,
      pyFloat_thousand, pyFloat_fifteen_hundred, pyFloat_five_hundred]
    norm_num
  refine ⟨?_, ?_, rfl, rfl, hsum t1 t2 t3, ?_, ?_⟩
  · simp [get_json_info_multiple, foldl_add_map_sum]
  · simp only [get_json_info_multiple, foldl_add_map_sum]
    simp [foldl_add_map_sum]
  · show (get_json_info_multiple [invA t1, invB t2, invC t3]).total_amount * (5 / 100) = 175
    rw [hsum t1 t2 t3]
    norm_num
  · show (get_json_info_multiple [invA t1, invB t2, invC t3]).total_amount * (105 / 100) = 3675
    rw [hsum t1 t2 t3]
    norm_num

/-- A label absent from the row defaults to `some ""`. -/
theorem pyGet_of_missing {r : Row} {k : String} (h : r k = Cell.missing) :
    pyGet r k = some "" := by
  simp [pyGet, h]

/-- A top-level field is Python `None` exactly when the cell is null. -/
theorem pyGet_eq_none_iff (r : Row) (k : String) :
    pyGet r k = none ↔ r k = Cell.null := by
  cases h : r k <;> simp [pyGet, h]

/-- C4 counterexample: a row whose customer-name label carries a null cell
(as `csv.DictReader` produces for a short row) yields a record whose
`customer_name` is null, not a string. -/
theorem c4_null_cell_counterexample :
    (readRow nullNameRow).customer_name = none := rfl

/-- C4 (amended): `read_csv_to_json` never raises (it is total), and each
top-level field defaults to the empty string when its label is absent from
the row; however a label present with a null cell yields a null field — a
top-level field is null exactly when its cell is null. -/
theorem c4_field_defaulting (r : Row) :
    (r "客戶名稱" = Cell.missing → (readRow r).customer_name = some "") ∧
    ((readRow r).customer_name = none ↔ r "客戶名稱" = Cell.null) ∧
    (r "聯絡人" = Cell.missing → (readRow r).contact_person = some "") ∧
    ((readRow r).contact_person = none ↔ r "聯絡人" = Cell.null) ∧
    (r "電話" = Cell.missing → (readRow r).phone = some "") ∧
    ((readRow r).phone = none ↔ r "電話" = Cell.null) ∧
    (r "客戶統編" = Cell.missing → (readRow r).tax_id = some "") ∧
    ((readRow r).tax_id = none ↔ r "客戶統編" = Cell.null) ∧
    (r "發票號碼" = Cell.missing → (readRow r).invoice_number = some "") ∧
    ((readRow r).invoice_number = none ↔ r "發票號碼" = Cell.null) ∧
    (r "發票日期" = Cell.missing → (readRow r).invoice_date = some "") ∧
    ((readRow r).invoice_date = none ↔ r "發票日期" = Cell.null) ∧
    (r "發票" = Cell.missing → (readRow r).invoice_type = some "") ∧
    ((readRow r).invoice_type = none ↔ r "發票" = Cell.null) ∧
    (r "備註" = Cell.missing → (readRow r).notes = some "") ∧
    ((readRow r).notes = none ↔ r "備註" = Cell.null) := by
  exact ⟨fun h => pyGet_of_missing h, pyGet_eq_none_iff r _,
    fun h => pyGet_of_missing h, pyGet_eq_none_iff r _,
    fun h => pyGet_of_missing h, pyGet_eq_none_iff r _,
    fun h => pyGet_of_missing h, pyGet_eq_none_iff r _,
    fun h => pyGet_of_missing h, pyGet_eq_none_iff r _,
    fun h => pyGet_of_missing h, pyGet_eq_none_iff r _,
    fun h => pyGet_of_missing h, pyGet_eq_none_iff r _,
    fun h => pyGet_of_missing h, pyGet_eq_none_iff r _⟩

/-- C4 witness: a row with no labels at all yields an empty-string customer
name. -/
theorem c4_field_defaulting_witness :
    (readRow (fun _ => Cell.missing)).customer_name = some "" := by
  exact (c4_field_defaulting (fun _ => Cell.missing)).1 rfl

/-- C5: structure validation accepts a single record and a list of records
transparently and returns true exactly when every record has the nine
required fields and a list-valued `items` whose every element contains the
four item fields; a record missing `notes` fails, and the first reported
offending field of that record is `notes`.  (The validator neither computes
amounts nor mutates its input: it is a pure predicate on the data.) -/
theorem c5_structure_validation (inv : List (String × JVal))
    (invs : List (List (String × JVal))) :
    (validate_json_structure (JsonData.single inv) = true ↔ InvoiceWellFormed inv) ∧
    (validate_json_structure (JsonData.multiple invs) = true ↔
        ∀ i ∈ invs, InvoiceWellFormed i) ∧
    validate_json_structure (JsonData.single notesMissing) = false ∧
    firstMissingRequired notesMissing = some "notes" := by
  refine ⟨?_, ?_, by decide, by decide⟩
  · show (validate_single_invoice inv).getD false = true ↔ _
    rw [← validate_single_eq_some_true]
    cases h : validate_single_invoice inv with
    | none => simp [h]
    | some b => cases b <;> simp [h]
  · show validateList invs = true ↔ _
    rw [validateList_eq_true]
    constructor
    · intro h i hi
      exact (validate_single_eq_some_true i).mp (h i hi)
    · intro h i hi
      exact (validate_single_eq_some_true i).mpr (h i hi)

/-- C5 witness: a complete record validates. -/
theorem c5_structure_validation_witness :
    validate_json_structure (JsonData.single sampleOK) = true := by
  exact (c5_structure_validation sampleOK []).1.mpr ⟨by decide, [], rfl, by simp⟩

/-- C6: the normalizer reads exactly four item slots and keeps a slot iff
its stripped name is non-empty, in slot order; a row with only slots 1 and 3
populated yields exactly those two items, slot 1 first. -/
theorem c6_slot_filtering (r : Row) :
    (readRow r).items
        = (slotTriples.filter (fun kt => pyStrip (getStr r kt.1) ≠ "")).map (mkSlotItem r) ∧
    slotTriples.length = 4 ∧
    (readRow row13).items
        = [{ name := "甲", quantity := "1", unit_price := "10", amount := "" },
           { name := "丙", quantity := "3", unit_price := "30", amount := "" }] := by
  refine ⟨readRowItems_eq r, rfl, by decide⟩

/-- C7: the combined markup of `generate_multiple_pdfs` is the per-record
documents joined in input order with exactly one page-break marker between
consecutive documents and none after the last; for a concrete batch of three
records the combined markup contains exactly two marker occurrences. -/
theorem c7_page_break_concat (today : String) (template : PreparedData → String)
    (invs : List Invoice) :
    generate_multiple_html today template invs
        = pyJoin (pageBreakDiv ++ "\n") (invs.map (generate_html today template)) ∧
    countSubstr (generate_multiple_html "d" templC invsC).data pageBreakDiv.data = 2 := by
  exact ⟨pyJoin_withBreaks _, by decide⟩

/-- C8: a quantity matching the bare month-count pattern is displayed as
`"<digits>個月"` while any other quantity is displayed unchanged, and the
amount derivation keeps using the original quantity string; quantity
`"3 月"` with unit price `"1000"` and empty amount yields amount `"3000"`
and display quantity `"3個月"`. -/
theorem c8_month_display (it : Item) :
    (∀ ds, monthDigits it.quantity = some ds →
        (processItem it).display_quantity = ds ++ "個月") ∧
    (monthDigits it.quantity = none →
        (processItem it).display_quantity = it.quantity) ∧
    (it.amount = "" → 0 < calculate_item_amount it.quantity it.unit_price →
        (processItem it).amount
          = toString (truncQ (calculate_item_amount it.quantity it.unit_price))) ∧
    (processItem { name := "s", quantity := "3 月", unit_price := "1000", amount := "" }).amount
        = "3000" ∧
    (processItem { name := "s", quantity := "3 月", unit_price := "1000", amount := "" }).display_quantity
        = "3個月" := by
  have hc : calculate_item_amount "3 月" "1000" = 3000 := by
    have hq : pyFloat? (extractQtyNum "3 月") = some 3 := by
      rw [show extractQtyNum "3 月" = "3" from by decide, pyFloat_three]
    rw [calculate_item_amount, hq, show pyStrip "1000" = "1000" from by decide,
      pyFloat_thousand]
    norm_num
  refine ⟨?_, ?_, ?_, ?_, by decide⟩
  · intro ds h
    simp [processItem, h]
  · intro h
    simp [processItem, h]
  · intro ha hpos
    simp [processItem, ha, hpos]
  · simp [processItem, hc, show (0 : ℚ) < 3000 from by norm_num,
      show truncQ (3000 : ℚ) = 3000 from by norm_num [truncQ],
      show toString (3000 : ℤ) = "3000" from by decide]

/-- C8 witness: a concrete month-count quantity is rewritten for display. -/
theorem c8_month_display_witness :
    (processItem { name := "w", quantity := "6 月", unit_price := "2", amount := "" }).display_quantity
      = "6個月" := by
  exact (c8_month_display { name := "w", quantity := "6 月", unit_price := "2", amount := "" }).1
    "6" (by decide)

/-- C9: saving a normalized record set to the intermediate JSON form and
loading it back reproduces the record set field for field (the stdlib JSON
text layer is modelled as the identity on JSON values). -/
theorem c9_save_load_round_trip (invs : List RawInvoice) :
    loadInvoices (dumpInvoices invs) = some invs := by
  have h : ∀ l : List RawInvoice, decodeInvoiceList (l.map invoiceToJ) = some l := by
    intro l
    induction l with
    | nil => rfl
    | cons inv rest ih => simp [decodeInvoiceList, jToInvoice_invoiceToJ, ih]
  simpa [loadInvoices, dumpInvoices] using h invs

/-- C10: every line item produced by `read_csv_to_json` carries an empty
amount, left for the calculation engine to derive. -/
theorem c10_csv_amounts_empty (rows : List Row) (inv : RawInvoice)
    (hinv : inv ∈ read_csv_to_json rows) (it : Item) (hit : it ∈ inv.items) :
    it.amount = "" := by
  rcases List.mem_map.mp hinv with ⟨r, hr, rfl⟩
  have hit2 : it ∈ readRowItems r := hit
  rw [readRowItems_eq r] at hit2
  rcases List.mem_map.mp hit2 with ⟨kt, hkt, rfl⟩
  rfl

/-- C10 witness: a concrete normalized item has an empty amount. -/
theorem c10_csv_amounts_empty_witness :
    ({ name := "甲", quantity := "1", unit_price := "10", amount := "" } : Item).amount = "" := by
  exact c10_csv_amounts_empty [row13] (readRow row13)
    (List.mem_map.mpr ⟨row13, List.mem_singleton_self row13, rfl⟩) _ (by decide)
